import Mathlib

/-!
Shallow embedding of the aggregation and diversity-classification core of the
VCC demographic-survey application (src/app.py).

Modelling conventions:
* SQLite integer counters become `Nat` (the schema counters are non-negative
  and only ever incremented).
* Python float division in `calculate_diverse_status` and the export layer is
  modelled as exact rational (`ℚ`) arithmetic.
* The JSON submission payload read by `submit_survey` is modelled as a record
  of `Option String` axis values (absent key = `none`) plus the truthiness of
  the `decline_all` flag as a `Bool`.
* `calculate_diverse_status` returns `Option Nat`, mirroring the Python
  function's `None` / `1` / `0` return values; `classify` interprets that
  result as the spec's tri-state `DiverseStatus`.
-/

/-- The Tier-1 aggregated counts row (`aggregated_responses`), as read and
written by `submit_survey` and `update_founders` in src/app.py.  Database
identifiers and timestamps are omitted (no claim concerns them). -/
structure CountsRecord where
  total_founders : Nat := 0
  total_responses : Nat := 0
  total_declined_all : Nat := 0
  gender_woman : Nat := 0
  gender_man : Nat := 0
  gender_nonbinary : Nat := 0
  gender_transgender : Nat := 0
  gender_other : Nat := 0
  gender_declined : Nat := 0
  race_black : Nat := 0
  race_asian : Nat := 0
  race_hispanic : Nat := 0
  race_native_american : Nat := 0
  race_pacific_islander : Nat := 0
  race_white : Nat := 0
  race_other : Nat := 0
  race_declined : Nat := 0
  lgbtq_yes : Nat := 0
  lgbtq_no : Nat := 0
  lgbtq_declined : Nat := 0
  disability_yes : Nat := 0
  disability_no : Nat := 0
  disability_declined : Nat := 0
  veteran_yes : Nat := 0
  veteran_disabled : Nat := 0
  veteran_no : Nat := 0
  veteran_declined : Nat := 0
  ca_resident_yes : Nat := 0
  ca_resident_no : Nat := 0
  ca_resident_declined : Nat := 0
  is_primarily_diverse : Option Nat := none
  deriving Repr, DecidableEq

/-- One survey submission as consumed by `submit_survey` (src/app.py lines
203–279): each axis carries the submitted string value when the key is
present, `none` when absent; `decline_all` is the truthiness of the
`decline_all` flag. -/
structure Submission where
  decline_all : Bool := false
  gender : Option String := none
  race : Option String := none
  lgbtq : Option String := none
  disability : Option String := none
  veteran : Option String := none
  ca_resident : Option String := none
  deriving Repr, DecidableEq

/-- `calculate_diverse_status` (src/app.py lines 56–106), verbatim: `None`
when `total_founders == 0` or the response rate is at most one half
(Python float division modelled as exact rational division), otherwise `1`
when the over-counting indicator sum reaches `total_responses` and `0`
otherwise. -/
def calculate_diverse_status (a : CountsRecord) : Option Nat :=
  if a.total_founders = 0 ∨
      (a.total_responses : ℚ) / (a.total_founders : ℚ) ≤ 1/2 then
    none
  else
    let diverse_count : Nat := 0
    let diverse_count :=
      if a.gender_woman > 0 then diverse_count + a.gender_woman else diverse_count
    let diverse_count :=
      if a.gender_nonbinary > 0 then diverse_count + a.gender_nonbinary else diverse_count
    let diverse_count :=
      if a.gender_transgender > 0 then diverse_count + a.gender_transgender else diverse_count
    let race_diverse := a.race_black + a.race_asian + a.race_hispanic +
      a.race_native_american + a.race_pacific_islander
    let lgbtq_diverse := a.lgbtq_yes
    let disability_diverse := a.disability_yes
    let veteran_diverse := a.veteran_yes + a.veteran_disabled
    let total_diverse_indicators :=
      diverse_count + race_diverse + lgbtq_diverse +
      disability_diverse + veteran_diverse
    if total_diverse_indicators ≥ a.total_responses then some 1 else some 0

/-- The spec's tri-state classification. -/
inductive DiverseStatus where
  | Diverse
  | NotDiverse
  | Indeterminate
  deriving Repr, DecidableEq

/-- Interpretation of `calculate_diverse_status`'s `None` / `0` / `1` return
values as the spec's tri-state `DiverseStatus`. -/
def classify (c : CountsRecord) : DiverseStatus :=
  match calculate_diverse_status c with
  | none => DiverseStatus.Indeterminate
  | some 0 => DiverseStatus.NotDiverse
  | some _ => DiverseStatus.Diverse

/-- The gender if/elif chain of `submit_survey` (src/app.py lines 210–222). -/
def apply_gender (a : CountsRecord) (gender : Option String) : CountsRecord :=
  if gender = some "woman" then { a with gender_woman := a.gender_woman + 1 }
  else if gender = some "man" then { a with gender_man := a.gender_man + 1 }
  else if gender = some "nonbinary" then { a with gender_nonbinary := a.gender_nonbinary + 1 }
  else if gender = some "transgender" then { a with gender_transgender := a.gender_transgender + 1 }
  else if gender = some "none" then { a with gender_other := a.gender_other + 1 }
  else if gender = some "decline" then { a with gender_declined := a.gender_declined + 1 }
  else a

/-- The race if/elif chain of `submit_survey` (src/app.py lines 225–241). -/
def apply_race (a : CountsRecord) (race : Option String) : CountsRecord :=
  if race = some "black" then { a with race_black := a.race_black + 1 }
  else if race = some "asian" then { a with race_asian := a.race_asian + 1 }
  else if race = some "hispanic" then { a with race_hispanic := a.race_hispanic + 1 }
  else if race = some "native_american" then { a with race_native_american := a.race_native_american + 1 }
  else if race = some "pacific_islander" then { a with race_pacific_islander := a.race_pacific_islander + 1 }
  else if race = some "white" then { a with race_white := a.race_white + 1 }
  else if race = some "none" then { a with race_other := a.race_other + 1 }
  else if race = some "decline" then { a with race_declined := a.race_declined + 1 }
  else a

/-- The lgbtq if/elif chain of `submit_survey` (src/app.py lines 244–250). -/
def apply_lgbtq (a : CountsRecord) (lgbtq : Option String) : CountsRecord :=
  if lgbtq = some "yes" then { a with lgbtq_yes := a.lgbtq_yes + 1 }
  else if lgbtq = some "no" then { a with lgbtq_no := a.lgbtq_no + 1 }
  else if lgbtq = some "decline" then { a with lgbtq_declined := a.lgbtq_declined + 1 }
  else a

/-- The disability if/elif chain of `submit_survey` (src/app.py lines 253–259). -/
def apply_disability (a : CountsRecord) (disability : Option String) : CountsRecord :=
  if disability = some "yes" then { a with disability_yes := a.disability_yes + 1 }
  else if disability = some "no" then { a with disability_no := a.disability_no + 1 }
  else if disability = some "decline" then { a with disability_declined := a.disability_declined + 1 }
  else a

/-- The veteran if/elif chain of `submit_survey` (src/app.py lines 262–270). -/
def apply_veteran (a : CountsRecord) (veteran : Option String) : CountsRecord :=
  if veteran = some "veteran" then { a with veteran_yes := a.veteran_yes + 1 }
  else if veteran = some "disabled_veteran" then { a with veteran_disabled := a.veteran_disabled + 1 }
  else if veteran = some "no" then { a with veteran_no := a.veteran_no + 1 }
  else if veteran = some "decline" then { a with veteran_declined := a.veteran_declined + 1 }
  else a

/-- The California-residency if/elif chain of `submit_survey`
(src/app.py lines 273–279). -/
def apply_ca_resident (a : CountsRecord) (ca_resident : Option String) : CountsRecord :=
  if ca_resident = some "yes" then { a with ca_resident_yes := a.ca_resident_yes + 1 }
  else if ca_resident = some "no" then { a with ca_resident_no := a.ca_resident_no + 1 }
  else if ca_resident = some "decline" then { a with ca_resident_declined := a.ca_resident_declined + 1 }
  else a

/-- The aggregation step of `submit_survey` (src/app.py lines 199–283): bump
`total_responses`, then either bump `total_declined_all` (decline-all) or run
the six independent axis chains, and finally store the recomputed
classification in `is_primarily_diverse`. -/
def apply_submission (prior : CountsRecord) (s : Submission) : CountsRecord :=
  let a := { prior with total_responses := prior.total_responses + 1 }
  let a :=
    if s.decline_all then
      { a with total_declined_all := a.total_declined_all + 1 }
    else
      apply_ca_resident
        (apply_veteran
          (apply_disability
            (apply_lgbtq
              (apply_race (apply_gender a s.gender) s.race)
              s.lgbtq)
            s.disability)
          s.veteran)
        s.ca_resident
  { a with is_primarily_diverse := calculate_diverse_status a }

/-- `update_founders` (src/app.py lines 364–395): parse the submitted founder
count as an integer, clamp values below 1 up to 1, store it, and recompute
only the classification. -/
def update_founders (c : CountsRecord) (total_founders : Int) : CountsRecord :=
  let total_founders := if total_founders < 1 then 1 else total_founders
  let c' := { c with total_founders := total_founders.toNat }
  { c' with is_primarily_diverse := calculate_diverse_status c' }

/-- `1` when the submitted axis value equals the given recognized category,
`0` otherwise (proof-side accounting for the if/elif chains). -/
def oneIf (g : Option String) (v : String) : Nat :=
  if g = some v then 1 else 0

theorem apply_gender_eq (a : CountsRecord) (g : Option String) :
    apply_gender a g = { a with
      gender_woman := a.gender_woman + oneIf g "woman",
      gender_man := a.gender_man + oneIf g "man",
      gender_nonbinary := a.gender_nonbinary + oneIf g "nonbinary",
      gender_transgender := a.gender_transgender + oneIf g "transgender",
      gender_other := a.gender_other + oneIf g "none",
      gender_declined := a.gender_declined + oneIf g "decline" } := by
  simp only [apply_gender, oneIf]
  split_ifs <;> simp_all

theorem apply_race_eq (a : CountsRecord) (r : Option String) :
    apply_race a r = { a with
      race_black := a.race_black + oneIf r "black",
      race_asian := a.race_asian + oneIf r "asian",
      race_hispanic := a.race_hispanic + oneIf r "hispanic",
      race_native_american := a.race_native_american + oneIf r "native_american",
      race_pacific_islander := a.race_pacific_islander + oneIf r "pacific_islander",
      race_white := a.race_white + oneIf r "white",
      race_other := a.race_other + oneIf r "none",
      race_declined := a.race_declined + oneIf r "decline" } := by
  simp only [apply_race, oneIf]
  split_ifs <;> simp_all

theorem apply_lgbtq_eq (a : CountsRecord) (l : Option String) :
    apply_lgbtq a l = { a with
      lgbtq_yes := a.lgbtq_yes + oneIf l "yes",
      lgbtq_no := a.lgbtq_no + oneIf l "no",
      lgbtq_declined := a.lgbtq_declined + oneIf l "decline" } := by
  simp only [apply_lgbtq, oneIf]
  split_ifs <;> simp_all

theorem apply_disability_eq (a : CountsRecord) (d : Option String) :
    apply_disability a d = { a with
      disability_yes := a.disability_yes + oneIf d "yes",
      disability_no := a.disability_no + oneIf d "no",
      disability_declined := a.disability_declined + oneIf d "decline" } := by
  simp only [apply_disability, oneIf]
  split_ifs <;> simp_all

theorem apply_veteran_eq (a : CountsRecord) (v : Option String) :
    apply_veteran a v = { a with
      veteran_yes := a.veteran_yes + oneIf v "veteran",
      veteran_disabled := a.veteran_disabled + oneIf v "disabled_veteran",
      veteran_no := a.veteran_no + oneIf v "no",
      veteran_declined := a.veteran_declined + oneIf v "decline" } := by
  simp only [apply_veteran, oneIf]
  split_ifs <;> simp_all

theorem apply_ca_resident_eq (a : CountsRecord) (v : Option String) :
    apply_ca_resident a v = { a with
      ca_resident_yes := a.ca_resident_yes + oneIf v "yes",
      ca_resident_no := a.ca_resident_no + oneIf v "no",
      ca_resident_declined := a.ca_resident_declined + oneIf v "decline" } := by
  simp only [apply_ca_resident, oneIf]
  split_ifs <;> simp_all

/-- Field-wise characterization of one aggregation step: every counter gains
a delta that depends only on the submission. -/
def counts_step (c : CountsRecord) (s : Submission) : CountsRecord :=
  { c with
    total_responses := c.total_responses + 1,
    total_declined_all := c.total_declined_all + (if s.decline_all then 1 else 0),
    gender_woman := c.gender_woman + (if s.decline_all then 0 else oneIf s.gender "woman"),
    gender_man := c.gender_man + (if s.decline_all then 0 else oneIf s.gender "man"),
    gender_nonbinary := c.gender_nonbinary + (if s.decline_all then 0 else oneIf s.gender "nonbinary"),
    gender_transgender := c.gender_transgender + (if s.decline_all then 0 else oneIf s.gender "transgender"),
    gender_other := c.gender_other + (if s.decline_all then 0 else oneIf s.gender "none"),
    gender_declined := c.gender_declined + (if s.decline_all then 0 else oneIf s.gender "decline"),
    race_black := c.race_black + (if s.decline_all then 0 else oneIf s.race "black"),
    race_asian := c.race_asian + (if s.decline_all then 0 else oneIf s.race "asian"),
    race_hispanic := c.race_hispanic + (if s.decline_all then 0 else oneIf s.race "hispanic"),
    race_native_american := c.race_native_american + (if s.decline_all then 0 else oneIf s.race "native_american"),
    race_pacific_islander := c.race_pacific_islander + (if s.decline_all then 0 else oneIf s.race "pacific_islander"),
    race_white := c.race_white + (if s.decline_all then 0 else oneIf s.race "white"),
    race_other := c.race_other + (if s.decline_all then 0 else oneIf s.race "none"),
    race_declined := c.race_declined + (if s.decline_all then 0 else oneIf s.race "decline"),
    lgbtq_yes := c.lgbtq_yes + (if s.decline_all then 0 else oneIf s.lgbtq "yes"),
    lgbtq_no := c.lgbtq_no + (if s.decline_all then 0 else oneIf s.lgbtq "no"),
    lgbtq_declined := c.lgbtq_declined + (if s.decline_all then 0 else oneIf s.lgbtq "decline"),
    disability_yes := c.disability_yes + (if s.decline_all then 0 else oneIf s.disability "yes"),
    disability_no := c.disability_no + (if s.decline_all then 0 else oneIf s.disability "no"),
    disability_declined := c.disability_declined + (if s.decline_all then 0 else oneIf s.disability "decline"),
    veteran_yes := c.veteran_yes + (if s.decline_all then 0 else oneIf s.veteran "veteran"),
    veteran_disabled := c.veteran_disabled + (if s.decline_all then 0 else oneIf s.veteran "disabled_veteran"),
    veteran_no := c.veteran_no + (if s.decline_all then 0 else oneIf s.veteran "no"),
    veteran_declined := c.veteran_declined + (if s.decline_all then 0 else oneIf s.veteran "decline"),
    ca_resident_yes := c.ca_resident_yes + (if s.decline_all then 0 else oneIf s.ca_resident "yes"),
    ca_resident_no := c.ca_resident_no + (if s.decline_all then 0 else oneIf s.ca_resident "no"),
    ca_resident_declined := c.ca_resident_declined + (if s.decline_all then 0 else oneIf s.ca_resident "decline") }

/-- The aggregation step factors through `counts_step`: the stored record is
`counts_step c s` with the classification recomputed on it. -/
theorem apply_submission_eq (c : CountsRecord) (s : Submission) :
    apply_submission c s =
      { counts_step c s with
        is_primarily_diverse := calculate_diverse_status (counts_step c s) } := by
  cases s with
  | mk da g r l d v ca =>
    cases da with
    | true => simp [apply_submission, counts_step]
    | false =>
      simp only [apply_submission, counts_step, if_false, Bool.false_eq_true,
        apply_gender_eq, apply_race_eq, apply_lgbtq_eq, apply_disability_eq,
        apply_veteran_eq, apply_ca_resident_eq, ite_false, Nat.add_zero]

theorem calculate_diverse_status_set_ipd (c : CountsRecord) (d : Option Nat) :
    calculate_diverse_status { c with is_primarily_diverse := d } =
      calculate_diverse_status c := rfl

theorem counts_step_set_ipd (c : CountsRecord) (d : Option Nat) (s : Submission) :
    counts_step { c with is_primarily_diverse := d } s =
      { counts_step c s with is_primarily_diverse := d } := rfl

theorem counts_step_comm (c : CountsRecord) (s₁ s₂ : Submission) :
    counts_step (counts_step c s₁) s₂ = counts_step (counts_step c s₂) s₁ := by
  simp [counts_step, CountsRecord.mk.injEq, Nat.add_right_comm]

/-- The spec's `diverse_indicator_sum`: the plain (over-counting) sum of the
twelve diverse-identification counters named by the specification. -/
def diverse_indicator_sum (c : CountsRecord) : Nat :=
  c.gender_woman + c.gender_nonbinary + c.gender_transgender +
  c.race_black + c.race_asian + c.race_hispanic +
  c.race_native_american + c.race_pacific_islander +
  c.lgbtq_yes + c.disability_yes + c.veteran_yes + c.veteran_disabled

/-- `calculate_diverse_status`, rephrased: the `> 0` guards in the source are
redundant over non-negative counters, so its indicator total is the plain
twelve-counter sum. -/
theorem calculate_diverse_status_eq (c : CountsRecord) :
    calculate_diverse_status c =
      if c.total_founders = 0 ∨
          (c.total_responses : ℚ) / (c.total_founders : ℚ) ≤ 1/2 then
        none
      else if c.total_responses ≤ diverse_indicator_sum c then some 1 else some 0 := by
  simp only [calculate_diverse_status, diverse_indicator_sum, ge_iff_le]
  split_ifs <;> first | rfl | omega

/-- `classify`, rephrased through `calculate_diverse_status_eq`. -/
theorem classify_eq (c : CountsRecord) :
    classify c =
      if c.total_founders = 0 ∨
          (c.total_responses : ℚ) / (c.total_founders : ℚ) ≤ 1/2 then
        DiverseStatus.Indeterminate
      else if c.total_responses ≤ diverse_indicator_sum c then
        DiverseStatus.Diverse
      else
        DiverseStatus.NotDiverse := by
  simp only [classify, calculate_diverse_status_eq]
  split_ifs <;> rfl

/-- The classifier is indeterminate exactly on the zero-founders or
at-most-half response-rate records. -/
theorem classify_indeterminate_aux (c : CountsRecord) :
    classify c = DiverseStatus.Indeterminate ↔
      (c.total_founders = 0 ∨
        (c.total_responses : ℚ) / (c.total_founders : ℚ) ≤ 1/2) := by
  rw [classify_eq]
  split_ifs with h h₂
  · exact iff_of_true rfl h
  · exact iff_of_false (by decide) h
  · exact iff_of_false (by decide) h

/-- A concrete record: one founder, one response, by a woman founder. -/
def sampleDiverse : CountsRecord :=
  { total_founders := 1, total_responses := 1, gender_woman := 1 }

/-- A concrete record at exactly 50% response rate. -/
def sampleHalfRate : CountsRecord :=
  { total_founders := 4, total_responses := 2 }

/-- A concrete record at 75% response rate with no diverse indicators. -/
def sampleOverHalfRate : CountsRecord :=
  { total_founders := 4, total_responses := 3 }

/-- C1: for every counts record with `total_founders > 0` and response rate
strictly above one half, the classifier returns `Diverse` exactly when the
over-counting sum `gender_woman + gender_nonbinary + gender_transgender +
race_black + race_asian + race_hispanic + race_native_american +
race_pacific_islander + lgbtq_yes + disability_yes + veteran_yes +
veteran_disabled` is at least `total_responses`, and `NotDiverse`
otherwise. -/
theorem claim_C1_over_half_classification (c : CountsRecord)
    (hf : 0 < c.total_founders)
    (hr : 1/2 < (c.total_responses : ℚ) / (c.total_founders : ℚ)) :
    (classify c = DiverseStatus.Diverse ↔
      c.total_responses ≤ diverse_indicator_sum c) ∧
    (classify c = DiverseStatus.NotDiverse ↔
      diverse_indicator_sum c < c.total_responses) := by
  have hcond : ¬ (c.total_founders = 0 ∨
      (c.total_responses : ℚ) / (c.total_founders : ℚ) ≤ 1/2) := by
    push_neg
    exact ⟨hf.ne', hr⟩
  rw [classify_eq, if_neg hcond]
  split_ifs with h
  · exact ⟨iff_of_true rfl h, iff_of_false (by decide) (not_lt.mpr h)⟩
  · exact ⟨iff_of_false (by decide) h, iff_of_true rfl (not_le.mp h)⟩

/-- Concrete instantiation of `claim_C1_over_half_classification`: one
founder, one response by a woman founder, classified `Diverse`. -/
theorem claim_C1_witness :
    0 < sampleDiverse.total_founders ∧
      classify sampleDiverse = DiverseStatus.Diverse :=
  ⟨by decide,
    (claim_C1_over_half_classification sampleDiverse (by decide)
      (by norm_num [sampleDiverse])).1.mpr (by decide)⟩

/-- C2: the classifier returns `Indeterminate` iff `total_founders = 0` or
the response rate is at most one half; in particular 2 of 4 founders (exactly
50%) is `Indeterminate` while 3 of 4 founders proceeds past the
response-rate gate. -/
theorem claim_C2_indeterminate_iff (c : CountsRecord) :
    (classify c = DiverseStatus.Indeterminate ↔
      (c.total_founders = 0 ∨
        (c.total_responses : ℚ) / (c.total_founders : ℚ) ≤ 1/2)) ∧
    (c.total_founders = 4 → c.total_responses = 2 →
      classify c = DiverseStatus.Indeterminate) ∧
    (c.total_founders = 4 → c.total_responses = 3 →
      classify c ≠ DiverseStatus.Indeterminate) := by
  refine ⟨classify_indeterminate_aux c, ?_, ?_⟩
  · intro h4 h2
    exact (classify_indeterminate_aux c).mpr (Or.inr (by rw [h4, h2]; norm_num))
  · intro h4 h3
    rw [Ne, classify_indeterminate_aux c]
    push_neg
    exact ⟨by omega, by rw [h4, h3]; norm_num⟩

/-- Concrete instantiation of `claim_C2_indeterminate_iff` at 2-of-4 and
3-of-4 response rates. -/
theorem claim_C2_witness :
    classify sampleHalfRate = DiverseStatus.Indeterminate ∧
      classify sampleOverHalfRate ≠ DiverseStatus.Indeterminate :=
  ⟨(claim_C2_indeterminate_iff sampleHalfRate).2.1 rfl rfl,
   (claim_C2_indeterminate_iff sampleOverHalfRate).2.2 rfl rfl⟩

/-- A concrete non-decline submission answering five of the six axes. -/
def sampleSub : Submission :=
  { gender := some "woman", race := some "black", lgbtq := some "yes",
    disability := some "no", veteran := some "decline" }

/-- A concrete decline-all submission that also carries axis values. -/
def sampleDeclineSub : Submission :=
  { decline_all := true, gender := some "woman", race := some "asian" }

/-- C3: a non-decline-all submission bumps `total_responses` by one and, on
each of the six axes independently, bumps exactly the counter of the
submitted recognized category (`oneIf` is `1` on the matching category and
`0` elsewhere, so an absent or unrecognized axis bumps nothing);
`total_declined_all` is untouched. -/
theorem claim_C3_non_decline_step (c : CountsRecord) (s : Submission)
    (hda : s.decline_all = false) :
    (apply_submission c s).total_responses = c.total_responses + 1 ∧
    (apply_submission c s).gender_woman = c.gender_woman + oneIf s.gender "woman" ∧
    (apply_submission c s).gender_man = c.gender_man + oneIf s.gender "man" ∧
    (apply_submission c s).gender_nonbinary = c.gender_nonbinary + oneIf s.gender "nonbinary" ∧
    (apply_submission c s).gender_transgender = c.gender_transgender + oneIf s.gender "transgender" ∧
    (apply_submission c s).gender_other = c.gender_other + oneIf s.gender "none" ∧
    (apply_submission c s).gender_declined = c.gender_declined + oneIf s.gender "decline" ∧
    (apply_submission c s).race_black = c.race_black + oneIf s.race "black" ∧
    (apply_submission c s).race_asian = c.race_asian + oneIf s.race "asian" ∧
    (apply_submission c s).race_hispanic = c.race_hispanic + oneIf s.race "hispanic" ∧
    (apply_submission c s).race_native_american = c.race_native_american + oneIf s.race "native_american" ∧
    (apply_submission c s).race_pacific_islander = c.race_pacific_islander + oneIf s.race "pacific_islander" ∧
    (apply_submission c s).race_white = c.race_white + oneIf s.race "white" ∧
    (apply_submission c s).race_other = c.race_other + oneIf s.race "none" ∧
    (apply_submission c s).race_declined = c.race_declined + oneIf s.race "decline" ∧
    (apply_submission c s).lgbtq_yes = c.lgbtq_yes + oneIf s.lgbtq "yes" ∧
    (apply_submission c s).lgbtq_no = c.lgbtq_no + oneIf s.lgbtq "no" ∧
    (apply_submission c s).lgbtq_declined = c.lgbtq_declined + oneIf s.lgbtq "decline" ∧
    (apply_submission c s).disability_yes = c.disability_yes + oneIf s.disability "yes" ∧
    (apply_submission c s).disability_no = c.disability_no + oneIf s.disability "no" ∧
    (apply_submission c s).disability_declined = c.disability_declined + oneIf s.disability "decline" ∧
    (apply_submission c s).veteran_yes = c.veteran_yes + oneIf s.veteran "veteran" ∧
    (apply_submission c s).veteran_disabled = c.veteran_disabled + oneIf s.veteran "disabled_veteran" ∧
    (apply_submission c s).veteran_no = c.veteran_no + oneIf s.veteran "no" ∧
    (apply_submission c s).veteran_declined = c.veteran_declined + oneIf s.veteran "decline" ∧
    (apply_submission c s).ca_resident_yes = c.ca_resident_yes + oneIf s.ca_resident "yes" ∧
    (apply_submission c s).ca_resident_no = c.ca_resident_no + oneIf s.ca_resident "no" ∧
    (apply_submission c s).ca_resident_declined = c.ca_resident_declined + oneIf s.ca_resident "decline" ∧
    (apply_submission c s).total_declined_all = c.total_declined_all := by
  simp [apply_submission_eq, counts_step, hda]

/-- Concrete instantiation of `claim_C3_non_decline_step`: a woman founder's
submission bumps `total_responses` and `gender_woman`. -/
theorem claim_C3_witness :
    sampleSub.decline_all = false ∧
    (apply_submission sampleHalfRate sampleSub).total_responses =
      sampleHalfRate.total_responses + 1 ∧
    (apply_submission sampleHalfRate sampleSub).gender_woman =
      sampleHalfRate.gender_woman + oneIf sampleSub.gender "woman" :=
  ⟨rfl,
   (claim_C3_non_decline_step sampleHalfRate sampleSub rfl).1,
   (claim_C3_non_decline_step sampleHalfRate sampleSub rfl).2.1⟩

/-- C4: a decline-all submission bumps only `total_declined_all` and
`total_responses`, each by one; every per-axis category counter is
unchanged. -/
theorem claim_C4_decline_all_step (c : CountsRecord) (s : Submission)
    (hda : s.decline_all = true) :
    (apply_submission c s).total_declined_all = c.total_declined_all + 1 ∧
    (apply_submission c s).total_responses = c.total_responses + 1 ∧
    (apply_submission c s).gender_woman = c.gender_woman ∧
    (apply_submission c s).gender_man = c.gender_man ∧
    (apply_submission c s).gender_nonbinary = c.gender_nonbinary ∧
    (apply_submission c s).gender_transgender = c.gender_transgender ∧
    (apply_submission c s).gender_other = c.gender_other ∧
    (apply_submission c s).gender_declined = c.gender_declined ∧
    (apply_submission c s).race_black = c.race_black ∧
    (apply_submission c s).race_asian = c.race_asian ∧
    (apply_submission c s).race_hispanic = c.race_hispanic ∧
    (apply_submission c s).race_native_american = c.race_native_american ∧
    (apply_submission c s).race_pacific_islander = c.race_pacific_islander ∧
    (apply_submission c s).race_white = c.race_white ∧
    (apply_submission c s).race_other = c.race_other ∧
    (apply_submission c s).race_declined = c.race_declined ∧
    (apply_submission c s).lgbtq_yes = c.lgbtq_yes ∧
    (apply_submission c s).lgbtq_no = c.lgbtq_no ∧
    (apply_submission c s).lgbtq_declined = c.lgbtq_declined ∧
    (apply_submission c s).disability_yes = c.disability_yes ∧
    (apply_submission c s).disability_no = c.disability_no ∧
    (apply_submission c s).disability_declined = c.disability_declined ∧
    (apply_submission c s).veteran_yes = c.veteran_yes ∧
    (apply_submission c s).veteran_disabled = c.veteran_disabled ∧
    (apply_submission c s).veteran_no = c.veteran_no ∧
    (apply_submission c s).veteran_declined = c.veteran_declined ∧
    (apply_submission c s).ca_resident_yes = c.ca_resident_yes ∧
    (apply_submission c s).ca_resident_no = c.ca_resident_no ∧
    (apply_submission c s).ca_resident_declined = c.ca_resident_declined := by
  simp [apply_submission_eq, counts_step, hda]

/-- Concrete instantiation of `claim_C4_decline_all_step`: even a decline-all
submission that carries axis values moves no per-axis counter. -/
theorem claim_C4_witness :
    sampleDeclineSub.decline_all = true ∧
    (apply_submission sampleDiverse sampleDeclineSub).total_declined_all =
      sampleDiverse.total_declined_all + 1 ∧
    (apply_submission sampleDiverse sampleDeclineSub).gender_woman =
      sampleDiverse.gender_woman :=
  ⟨rfl,
   (claim_C4_decline_all_step sampleDiverse sampleDeclineSub rfl).1,
   (claim_C4_decline_all_step sampleDiverse sampleDeclineSub rfl).2.2.1⟩

theorem set_ipd_set_ipd (c : CountsRecord) (d e : Option Nat) :
    ({ { c with is_primarily_diverse := d } with
        is_primarily_diverse := e } : CountsRecord) =
      { c with is_primarily_diverse := e } := rfl

/-- Two aggregation steps commute on the whole stored record, including the
recomputed classification. -/
theorem apply_submission_swap (c : CountsRecord) (a b : Submission) :
    apply_submission (apply_submission c a) b =
      apply_submission (apply_submission c b) a := by
  simp only [apply_submission_eq, counts_step_set_ipd,
    calculate_diverse_status_set_ipd, set_ipd_set_ipd]
  rw [counts_step_comm]

/-- C5: applying submissions A then B yields the same stored record as B then
A, and more generally replaying any permutation of a submission history
yields the same final record. -/
theorem claim_C5_order_independence :
    (∀ (c : CountsRecord) (a b : Submission),
      apply_submission (apply_submission c a) b =
        apply_submission (apply_submission c b) a) ∧
    (∀ (c : CountsRecord) (l l' : List Submission), l.Perm l' →
      l.foldl apply_submission c = l'.foldl apply_submission c) := by
  refine ⟨apply_submission_swap, fun c l l' hp => ?_⟩
  exact hp.foldl_eq' (fun x _ y _ z => apply_submission_swap z x y) c

/-- Concrete instantiation of `claim_C5_order_independence` on the two-element
history `[sampleSub, sampleDeclineSub]` and its transposition. -/
theorem claim_C5_witness :
    List.foldl apply_submission sampleDiverse [sampleSub, sampleDeclineSub] =
      List.foldl apply_submission sampleDiverse [sampleDeclineSub, sampleSub] :=
  claim_C5_order_independence.2 sampleDiverse _ _
    (List.Perm.swap sampleDeclineSub sampleSub [])

/-- Pointwise order on every per-axis counter, `total_declined_all` and
`total_responses` (the counters the monotonicity property names). -/
def countsLE (a b : CountsRecord) : Prop :=
  a.total_responses ≤ b.total_responses ∧
  a.total_declined_all ≤ b.total_declined_all ∧
  a.gender_woman ≤ b.gender_woman ∧
  a.gender_man ≤ b.gender_man ∧
  a.gender_nonbinary ≤ b.gender_nonbinary ∧
  a.gender_transgender ≤ b.gender_transgender ∧
  a.gender_other ≤ b.gender_other ∧
  a.gender_declined ≤ b.gender_declined ∧
  a.race_black ≤ b.race_black ∧
  a.race_asian ≤ b.race_asian ∧
  a.race_hispanic ≤ b.race_hispanic ∧
  a.race_native_american ≤ b.race_native_american ∧
  a.race_pacific_islander ≤ b.race_pacific_islander ∧
  a.race_white ≤ b.race_white ∧
  a.race_other ≤ b.race_other ∧
  a.race_declined ≤ b.race_declined ∧
  a.lgbtq_yes ≤ b.lgbtq_yes ∧
  a.lgbtq_no ≤ b.lgbtq_no ∧
  a.lgbtq_declined ≤ b.lgbtq_declined ∧
  a.disability_yes ≤ b.disability_yes ∧
  a.disability_no ≤ b.disability_no ∧
  a.disability_declined ≤ b.disability_declined ∧
  a.veteran_yes ≤ b.veteran_yes ∧
  a.veteran_disabled ≤ b.veteran_disabled ∧
  a.veteran_no ≤ b.veteran_no ∧
  a.veteran_declined ≤ b.veteran_declined ∧
  a.ca_resident_yes ≤ b.ca_resident_yes ∧
  a.ca_resident_no ≤ b.ca_resident_no ∧
  a.ca_resident_declined ≤ b.ca_resident_declined

theorem countsLE_trans {a b c : CountsRecord}
    (h₁ : countsLE a b) (h₂ : countsLE b c) : countsLE a c := by
  unfold countsLE at h₁ h₂ ⊢
  omega

theorem countsLE_step (c : CountsRecord) (s : Submission) :
    countsLE c (apply_submission c s) := by
  cases hda : s.decline_all <;>
    simp [countsLE, apply_submission_eq, counts_step, hda]

theorem countsLE_foldl (c : CountsRecord) (l : List Submission) :
    countsLE c (l.foldl apply_submission c) := by
  induction l generalizing c with
  | nil => simp only [List.foldl_nil]; unfold countsLE; omega
  | cons s t ih =>
    exact countsLE_trans (countsLE_step c s) (ih (apply_submission c s))

/-- C6: aggregation only increases counts: after one step, and after any
sequence of steps, every per-axis counter, `total_declined_all` and
`total_responses` is at least its prior value. -/
theorem claim_C6_monotonicity :
    (∀ (c : CountsRecord) (s : Submission), countsLE c (apply_submission c s)) ∧
    (∀ (c : CountsRecord) (l : List Submission),
      countsLE c (l.foldl apply_submission c)) :=
  ⟨countsLE_step, countsLE_foldl⟩

/-- C7: the administrator founder-count correction rewrites `total_founders`
and recomputes only the stored classification; `total_responses`,
`total_declined_all` and every per-axis category counter are unchanged, and
the stored classification equals the classification of the updated record. -/
theorem claim_C7_update_founders_frame (c : CountsRecord) (n : Int) :
    (update_founders c n).total_responses = c.total_responses ∧
    (update_founders c n).total_declined_all = c.total_declined_all ∧
    (update_founders c n).gender_woman = c.gender_woman ∧
    (update_founders c n).gender_man = c.gender_man ∧
    (update_founders c n).gender_nonbinary = c.gender_nonbinary ∧
    (update_founders c n).gender_transgender = c.gender_transgender ∧
    (update_founders c n).gender_other = c.gender_other ∧
    (update_founders c n).gender_declined = c.gender_declined ∧
    (update_founders c n).race_black = c.race_black ∧
    (update_founders c n).race_asian = c.race_asian ∧
    (update_founders c n).race_hispanic = c.race_hispanic ∧
    (update_founders c n).race_native_american = c.race_native_american ∧
    (update_founders c n).race_pacific_islander = c.race_pacific_islander ∧
    (update_founders c n).race_white = c.race_white ∧
    (update_founders c n).race_other = c.race_other ∧
    (update_founders c n).race_declined = c.race_declined ∧
    (update_founders c n).lgbtq_yes = c.lgbtq_yes ∧
    (update_founders c n).lgbtq_no = c.lgbtq_no ∧
    (update_founders c n).lgbtq_declined = c.lgbtq_declined ∧
    (update_founders c n).disability_yes = c.disability_yes ∧
    (update_founders c n).disability_no = c.disability_no ∧
    (update_founders c n).disability_declined = c.disability_declined ∧
    (update_founders c n).veteran_yes = c.veteran_yes ∧
    (update_founders c n).veteran_disabled = c.veteran_disabled ∧
    (update_founders c n).veteran_no = c.veteran_no ∧
    (update_founders c n).veteran_declined = c.veteran_declined ∧
    (update_founders c n).ca_resident_yes = c.ca_resident_yes ∧
    (update_founders c n).ca_resident_no = c.ca_resident_no ∧
    (update_founders c n).ca_resident_declined = c.ca_resident_declined ∧
    (update_founders c n).is_primarily_diverse =
      calculate_diverse_status (update_founders c n) := by
  refine ⟨rfl, rfl, rfl, rfl, rfl, rfl, rfl, rfl, rfl, rfl, rfl, rfl, rfl, rfl,
    rfl, rfl, rfl, rfl, rfl, rfl, rfl, rfl, rfl, rfl, rfl, rfl, rfl, rfl, rfl, rfl⟩

/-- C10 (implicit): the stored founder count after an administrator update is
clamped to at least 1, so the updated record can never hit the classifier's
zero-founders branch; if the classifier still returns `Indeterminate` it is
only because the response rate is at most one half. -/
theorem claim_C10_founders_clamped (c : CountsRecord) (n : Int) :
    1 ≤ (update_founders c n).total_founders ∧
    (n < 1 → (update_founders c n).total_founders = 1) ∧
    (1 ≤ n → ((update_founders c n).total_founders : Int) = n) ∧
    (update_founders c n).total_founders ≠ 0 ∧
    (classify (update_founders c n) = DiverseStatus.Indeterminate →
      ((update_founders c n).total_responses : ℚ) /
        ((update_founders c n).total_founders : ℚ) ≤ 1/2) := by
  have htf : 1 ≤ (update_founders c n).total_founders := by
    simp only [update_founders]
    split_ifs <;> omega
  refine ⟨htf, ?_, ?_, by omega, ?_⟩
  · intro h
    simp only [update_founders]
    rw [if_pos h]
    rfl
  · intro h
    simp only [update_founders]
    rw [if_neg (by omega)]
    omega
  · intro h
    rcases (classify_indeterminate_aux _).mp h with h0 | hrate
    · omega
    · exact hrate

/-- Concrete instantiation of `claim_C10_founders_clamped`: an update to -5
founders stores 1. -/
theorem claim_C10_witness :
    (-5 : Int) < 1 ∧ (update_founders sampleDiverse (-5)).total_founders = 1 :=
  ⟨by decide, (claim_C10_founders_clamped sampleDiverse (-5)).2.1 (by decide)⟩

/-- A concrete submission carrying unrecognized values on every axis. -/
def sampleBogusSub : Submission :=
  { gender := some "genderqueer", race := some "arab", lgbtq := some "maybe",
    disability := some "unsure", veteran := some "reservist",
    ca_resident := some "sometimes" }

/-- C8: a non-decline submission whose value on some axis is outside that
axis's recognized set is aggregated without error and without moving any
counter of that axis; the submission is still counted in `total_responses`. -/
theorem claim_C8_unrecognized_ignored (c : CountsRecord) (s : Submission)
    (hda : s.decline_all = false) :
    (∀ v : String, s.gender = some v →
      v ∉ (["woman", "man", "nonbinary", "transgender", "none", "decline"] : List String) →
      (apply_submission c s).gender_woman = c.gender_woman ∧
      (apply_submission c s).gender_man = c.gender_man ∧
      (apply_submission c s).gender_nonbinary = c.gender_nonbinary ∧
      (apply_submission c s).gender_transgender = c.gender_transgender ∧
      (apply_submission c s).gender_other = c.gender_other ∧
      (apply_submission c s).gender_declined = c.gender_declined) ∧
    (∀ v : String, s.race = some v →
      v ∉ (["black", "asian", "hispanic", "native_american", "pacific_islander",
            "white", "none", "decline"] : List String) →
      (apply_submission c s).race_black = c.race_black ∧
      (apply_submission c s).race_asian = c.race_asian ∧
      (apply_submission c s).race_hispanic = c.race_hispanic ∧
      (apply_submission c s).race_native_american = c.race_native_american ∧
      (apply_submission c s).race_pacific_islander = c.race_pacific_islander ∧
      (apply_submission c s).race_white = c.race_white ∧
      (apply_submission c s).race_other = c.race_other ∧
      (apply_submission c s).race_declined = c.race_declined) ∧
    (∀ v : String, s.lgbtq = some v →
      v ∉ (["yes", "no", "decline"] : List String) →
      (apply_submission c s).lgbtq_yes = c.lgbtq_yes ∧
      (apply_submission c s).lgbtq_no = c.lgbtq_no ∧
      (apply_submission c s).lgbtq_declined = c.lgbtq_declined) ∧
    (∀ v : String, s.disability = some v →
      v ∉ (["yes", "no", "decline"] : List String) →
      (apply_submission c s).disability_yes = c.disability_yes ∧
      (apply_submission c s).disability_no = c.disability_no ∧
      (apply_submission c s).disability_declined = c.disability_declined) ∧
    (∀ v : String, s.veteran = some v →
      v ∉ (["veteran", "disabled_veteran", "no", "decline"] : List String) →
      (apply_submission c s).veteran_yes = c.veteran_yes ∧
      (apply_submission c s).veteran_disabled = c.veteran_disabled ∧
      (apply_submission c s).veteran_no = c.veteran_no ∧
      (apply_submission c s).veteran_declined = c.veteran_declined) ∧
    (∀ v : String, s.ca_resident = some v →
      v ∉ (["yes", "no", "decline"] : List String) →
      (apply_submission c s).ca_resident_yes = c.ca_resident_yes ∧
      (apply_submission c s).ca_resident_no = c.ca_resident_no ∧
      (apply_submission c s).ca_resident_declined = c.ca_resident_declined) ∧
    (apply_submission c s).total_responses = c.total_responses + 1 := by
  refine ⟨?_, ?_, ?_, ?_, ?_, ?_, ?_⟩
  case _ =>
    intro v hv hmem
    simp only [List.mem_cons, List.not_mem_nil, not_or, or_false] at hmem
    simp [apply_submission_eq, counts_step, hda, oneIf, hv, hmem.1, hmem.2.1,
      hmem.2.2.1, hmem.2.2.2.1, hmem.2.2.2.2.1, hmem.2.2.2.2.2]
  case _ =>
    intro v hv hmem
    simp only [List.mem_cons, List.not_mem_nil, not_or, or_false] at hmem
    simp [apply_submission_eq, counts_step, hda, oneIf, hv, hmem.1, hmem.2.1,
      hmem.2.2.1, hmem.2.2.2.1, hmem.2.2.2.2.1, hmem.2.2.2.2.2.1,
      hmem.2.2.2.2.2.2.1, hmem.2.2.2.2.2.2.2]
  case _ =>
    intro v hv hmem
    simp only [List.mem_cons, List.not_mem_nil, not_or, or_false] at hmem
    simp [apply_submission_eq, counts_step, hda, oneIf, hv, hmem.1, hmem.2.1, hmem.2.2]
  case _ =>
    intro v hv hmem
    simp only [List.mem_cons, List.not_mem_nil, not_or, or_false] at hmem
    simp [apply_submission_eq, counts_step, hda, oneIf, hv, hmem.1, hmem.2.1, hmem.2.2]
  case _ =>
    intro v hv hmem
    simp only [List.mem_cons, List.not_mem_nil, not_or, or_false] at hmem
    simp [apply_submission_eq, counts_step, hda, oneIf, hv, hmem.1, hmem.2.1,
      hmem.2.2.1, hmem.2.2.2]
  case _ =>
    intro v hv hmem
    simp only [List.mem_cons, List.not_mem_nil, not_or, or_false] at hmem
    simp [apply_submission_eq, counts_step, hda, oneIf, hv, hmem.1, hmem.2.1, hmem.2.2]
  case _ =>
    simp [apply_submission_eq, counts_step]

/-- Concrete instantiation of `claim_C8_unrecognized_ignored`: an
unrecognized gender value moves no gender counter while the response is
still counted. -/
theorem claim_C8_witness :
    (apply_submission sampleHalfRate sampleBogusSub).gender_woman =
      sampleHalfRate.gender_woman ∧
    (apply_submission sampleHalfRate sampleBogusSub).total_responses =
      sampleHalfRate.total_responses + 1 :=
  ⟨((claim_C8_unrecognized_ignored sampleHalfRate sampleBogusSub rfl).1
      "genderqueer" rfl (by decide)).1,
   (claim_C8_unrecognized_ignored sampleHalfRate sampleBogusSub rfl).2.2.2.2.2.2⟩

/-- Decimal digits of a natural number, most significant first, with explicit
fuel so the recursion is structural (and hence kernel-reducible). -/
def natDigits : Nat → Nat → List Char
  | 0, _ => []
  | _ + 1, 0 => []
  | fuel + 1, n => natDigits fuel (n / 10) ++ [Char.ofNat (48 + n % 10)]

/-- Decimal rendering of a natural number, as Python renders an `int`. -/
def natToString (n : Nat) : String :=
  if n = 0 then "0" else String.mk (natDigits (n + 1) n)

/-- Decimal rendering of an integer. -/
def intToString (i : Int) : String :=
  if i < 0 then "-" ++ natToString i.natAbs else natToString i.natAbs

/-- Round a rational to the nearest integer, ties to even: the rounding of
Python's fixed-point float formatting, modelled on exact rationals. -/
def roundHalfEven (q : ℚ) : ℤ :=
  let f := Int.floor q
  if q - (f : ℚ) < 1/2 then f
  else if 1/2 < q - (f : ℚ) then f + 1
  else if f % 2 = 0 then f else f + 1

/-- One-decimal fixed-point formatting of a rational: Python's `.1f` format
specifier modelled with exact rational arithmetic. -/
def formatFixed1 (q : ℚ) : String :=
  let n := roundHalfEven (q * 10)
  intToString (n / 10) ++ "." ++ natToString (n % 10).natAbs

/-- The response-rate cell of `export_dfpi_report` (src/app.py lines
567–578): `responses / founders * 100` when the founder count is nonzero and
the number `0` otherwise, then pushed through the one-decimal `.1f` format
(which Python applies in both branches). -/
def export_response_rate (total_responses total_founders : Nat) : String :=
  let response_rate : ℚ :=
    if total_founders ≠ 0 then
      (total_responses : ℚ) / (total_founders : ℚ) * 100
    else 0
  formatFixed1 response_rate

theorem roundHalfEven_zero : roundHalfEven 0 = 0 := by
  unfold roundHalfEven
  norm_num

theorem formatFixed1_zero : formatFixed1 0 = "0.0" := by
  unfold formatFixed1
  rw [show (0 : ℚ) * 10 = 0 by norm_num, roundHalfEven_zero]
  decide

/-- C9 counterexample: with zero founders the exported response-rate cell is
the string "0.0" (the zero value still passes through the one-decimal
format), not the claimed "0". -/
theorem claim_C9_counterexample :
    export_response_rate 0 0 = "0.0" ∧ export_response_rate 0 0 ≠ "0" := by
  have h : export_response_rate 0 0 = "0.0" := by
    simp only [export_response_rate, ne_eq, not_true_eq_false, if_false]
    exact formatFixed1_zero
  exact ⟨h, by rw [h]; decide⟩

/-- C9 (amended): the exported response-rate cell is
`responses / founders * 100` formatted to one decimal place when
`total_founders` is nonzero, and the string "0.0" (zero formatted to one
decimal place) when `total_founders` is zero. -/
theorem claim_C9_rate_formatting :
    (∀ r f : Nat, f ≠ 0 →
      export_response_rate r f = formatFixed1 ((r : ℚ) / (f : ℚ) * 100)) ∧
    (∀ r : Nat, export_response_rate r 0 = "0.0") := by
  constructor
  · intro r f hf
    simp only [export_response_rate]
    rw [if_pos hf]
  · intro r
    simp only [export_response_rate]
    rw [if_neg (by simp)]
    exact formatFixed1_zero

/-- Concrete instantiation of `claim_C9_rate_formatting` at 2 of 3 founders
and at zero founders. -/
theorem claim_C9_witness :
    (3 : Nat) ≠ 0 ∧
    export_response_rate 2 3 = formatFixed1 ((2 : ℚ) / (3 : ℚ) * 100) ∧
    export_response_rate 5 0 = "0.0" :=
  ⟨by decide, claim_C9_rate_formatting.1 2 3 (by decide),
    claim_C9_rate_formatting.2 5⟩
